import Mathlib

/-!
Verification of rss-personal-radio.

Shallow embedding of the repository's effects processor
(src/notebooks/vocoder.ipynb) and of the cron wrapper script run_jobs.sh.

Modelling conventions:
* Waveforms are lists of real numbers; Python float arithmetic is idealised
  as real arithmetic.
* Third-party signal-processing routines that the notebook merely calls
  (librosa.effects.pitch_shift, pedalboard's Chorus and Phaser plugins and
  scipy.signal.butter) are parameters of the embedding, bundled in the
  `ExternalFX` structure; everything the notebook itself computes
  (linspace / ring-mod carrier, the bandpass wrapper, scipy.signal.lfilter's
  direct-form difference equation, expand_dims / squeeze plumbing, and the
  toggle-driven control flow) is embedded concretely.
* A pedalboard board built from one plugin processes a 2-D (channels ×
  samples) array channel by channel, preserving the channel count; this is
  the `pedalboardRun` model.  np.squeeze(·, axis=0) fails unless axis 0 has
  size one, hence returns an `Option`.
-/

namespace RssPersonalRadio

/-! ### Constant table (first cell of vocoder.ipynb) -/

def PITCH_SHIFT_STEPS : ℤ := -3

noncomputable def RING_MOD_FREQ : ℝ := 400

noncomputable def BANDPASS_LOW : ℝ := 300

noncomputable def BANDPASS_HIGH : ℝ := 5000

noncomputable def FLANGER_RATE : ℝ := 1

noncomputable def FLANGER_DEPTH : ℝ := 0.8

noncomputable def FLANGER_CENTRE_DELAY_MS : ℝ := 3.0

noncomputable def FLANGER_FEEDBACK : ℝ := 0.5

noncomputable def FLANGER_MIX : ℝ := 0.2

noncomputable def PHASER_RATE : ℝ := 1.5

noncomputable def PHASER_DEPTH : ℝ := 0.7

noncomputable def PHASER_MIX : ℝ := 0.5

/-- The five effect toggles of the first cell ("TOGGLE THESE FLAGS"). -/
structure Config where
  DO_PITCH_SHIFT : Bool
  DO_RING_MOD : Bool
  DO_BANDPASS : Bool
  DO_FLANGER : Bool
  DO_PHASER : Bool

/-- Parameters handed to the pedalboard Chorus plugin. -/
structure ChorusParams where
  rate_hz : ℝ
  depth : ℝ
  centre_delay_ms : ℝ
  feedback : ℝ
  mix : ℝ

/-- Parameters handed to the pedalboard Phaser plugin. -/
structure PhaserParams where
  rate_hz : ℝ
  depth : ℝ
  mix : ℝ

/-- The third-party routines the notebook calls, as abstract parameters:
librosa's pitch shifter, pedalboard's Chorus and Phaser (acting on a single
channel at a given sample rate), and scipy's Butterworth designer returning
numerator and denominator coefficient lists. -/
structure ExternalFX where
  pitch_shift : (sr : ℝ) → (n_steps : ℤ) → (bins_per_octave : ℕ) →
    (res_type : String) → List ℝ → List ℝ
  chorus : ChorusParams → (sample_rate : ℝ) → List ℝ → List ℝ
  phaser : PhaserParams → (sample_rate : ℝ) → List ℝ → List ℝ
  butter : (order : ℕ) → (low : ℝ) → (high : ℝ) → (btype : String) →
    List ℝ × List ℝ

/-! ### numpy helpers used by the notebook -/

/-- np.linspace(start, stop, num, endpoint=False): step is
(stop - start)/num and the i-th sample is start + step·i. -/
noncomputable def linspace (start stop : ℝ) (num : ℕ) : List ℝ :=
  (List.range num).map fun (i : ℕ) => start + (stop - start) / (num : ℝ) * (i : ℝ)

/-- np.expand_dims(y, axis=0): a mono waveform becomes a one-channel 2-D
array. -/
def expand_dims0 (y : List ℝ) : List (List ℝ) := [y]

/-- np.squeeze(z, axis=0): succeeds exactly when axis 0 has size one. -/
def squeeze0 (z : List (List ℝ)) : Option (List ℝ) :=
  match z with
  | [c] => some c
  | _ => none

/-- A pedalboard built from a single plugin processes each channel of the
2-D array at the given sample rate. -/
noncomputable def pedalboardRun (plugin : ℝ → List ℝ → List ℝ)
    (sample_rate : ℝ) (z : List (List ℝ)) : List (List ℝ) :=
  z.map (plugin sample_rate)

/-! ### The effect cells of vocoder.ipynb -/

/-- Pitch-shift cell: `librosa.effects.pitch_shift(y, sr, n_steps=-3,
bins_per_octave=12, res_type='kaiser_best')` when toggled, else skip. -/
noncomputable def pitchShiftCell (fx : ExternalFX) (c : Config) (sr : ℝ)
    (y_current : List ℝ) : List ℝ :=
  if c.DO_PITCH_SHIFT then
    fx.pitch_shift sr PITCH_SHIFT_STEPS 12 "kaiser_best" y_current
  else y_current

/-- Ring-modulation cell: when toggled, `t = linspace(0, len/sr, len,
endpoint=False)`, `carrier = sin(2π·RING_MOD_FREQ·t)`, output
`y_current * carrier` (elementwise); else skip. -/
noncomputable def ringModCell (DO_RING_MOD : Bool) (sr : ℝ)
    (y_current : List ℝ) : List ℝ :=
  if DO_RING_MOD then
    let duration : ℝ := y_current.length / sr
    let t := linspace 0 duration y_current.length
    let carrier := t.map fun ti => Real.sin (2.0 * Real.pi * RING_MOD_FREQ * ti)
    List.zipWith (· * ·) y_current carrier
  else y_current

/-! ### scipy.signal.lfilter and the bandpass wrapper -/

/-- One direct-form-II-transposed pass of scipy.signal.lfilter: `n` is
max(len(b), len(a)); the state `z` has `n - 1` slots; each input sample
produces `y = b₀·x + z₀` and the shifted state
`zᵢ = bᵢ₊₁·x + zᵢ₊₁ - aᵢ₊₁·y`. -/
noncomputable def lfilterAux (b a : List ℝ) (n : ℕ) :
    List ℝ → List ℝ → List ℝ
  | _, [] => []
  | z, xn :: rest =>
    let yn := b.getD 0 0 * xn + z.getD 0 0
    let zNext := (List.range (n - 1)).map fun i =>
      b.getD (i + 1) 0 * xn + z.getD (i + 1) 0 - a.getD (i + 1) 0 * yn
    yn :: lfilterAux b a n zNext rest

/-- scipy.signal.lfilter(b, a, x): coefficients normalised by a₀, zero
initial state, direct form II transposed. -/
noncomputable def lfilter (b a x : List ℝ) : List ℝ :=
  let n := max b.length a.length
  let a0 := a.getD 0 0
  let bn := b.map (· / a0)
  let an := a.map (· / a0)
  lfilterAux bn an n (List.replicate (n - 1) 0) x

/-- bandpass_filter(data, lowcut, highcut, fs, order=4) from the second
cell: normalises the cutoffs by the Nyquist rate 0.5·fs, designs a
Butterworth band filter and applies lfilter. -/
noncomputable def bandpass_filter (butter : ℕ → ℝ → ℝ → String → List ℝ × List ℝ)
    (data : List ℝ) (lowcut highcut fs : ℝ) (order : ℕ := 4) : List ℝ :=
  let nyquist := 0.5 * fs
  let low := lowcut / nyquist
  let high := highcut / nyquist
  let ba := butter order low high "band"
  lfilter ba.1 ba.2 data

/-- Bandpass cell: `bandpass_filter(y_current, BANDPASS_LOW, BANDPASS_HIGH,
sr)` when toggled, else skip. -/
noncomputable def bandpassCell (fx : ExternalFX) (c : Config) (sr : ℝ)
    (y_current : List ℝ) : List ℝ :=
  if c.DO_BANDPASS then
    bandpass_filter fx.butter y_current BANDPASS_LOW BANDPASS_HIGH sr
  else y_current

/-- Flanger cell: expand to one channel, run a Chorus plugin configured
with the FLANGER_* constants through a pedalboard, squeeze back to mono. -/
noncomputable def flangerCell (fx : ExternalFX) (c : Config) (sr : ℝ)
    (y_current : List ℝ) : Option (List ℝ) :=
  if c.DO_FLANGER then
    let y_2d := expand_dims0 y_current
    let flanger_plugin : ChorusParams :=
      ⟨FLANGER_RATE, FLANGER_DEPTH, FLANGER_CENTRE_DELAY_MS,
        FLANGER_FEEDBACK, FLANGER_MIX⟩
    let processed := pedalboardRun (fx.chorus flanger_plugin) sr y_2d
    squeeze0 processed
  else some y_current

/-- Phaser cell: expand to one channel, run a Phaser plugin configured with
the PHASER_* constants through a pedalboard, squeeze back to mono. -/
noncomputable def phaserCell (fx : ExternalFX) (c : Config) (sr : ℝ)
    (y_current : List ℝ) : Option (List ℝ) :=
  if c.DO_PHASER then
    let y_2d := expand_dims0 y_current
    let processed := pedalboardRun (fx.phaser ⟨PHASER_RATE, PHASER_DEPTH, PHASER_MIX⟩) sr y_2d
    squeeze0 processed
  else some y_current

/-- The notebook's cell sequence on the work-in-progress waveform
`y_current`: pitch shift, then ring modulation, then bandpass, then
flanger, then phaser. -/
noncomputable def effectsChain (fx : ExternalFX) (c : Config) (sr : ℝ)
    (y : List ℝ) : Option (List ℝ) :=
  let y1 := pitchShiftCell fx c sr y
  let y2 := ringModCell c.DO_RING_MOD sr y1
  let y3 := bandpassCell fx c sr y2
  (flangerCell fx c sr y3).bind (phaserCell fx c sr)

/-- A decoded audio file: samples plus sample rate (librosa.load with
sr=None keeps the original rate). -/
structure AudioFile where
  samples : List ℝ
  sampleRate : ℝ

/-- The whole script: load `(y, sr)`, run the cell chain on `y.copy()`,
write the result with `sf.write(OUTPUT_FILE, y_current, sr)`. -/
noncomputable def runVocoder (fx : ExternalFX) (c : Config)
    (input : AudioFile) : Option AudioFile :=
  (effectsChain fx c input.sampleRate input.samples).map
    fun y_current => ⟨y_current, input.sampleRate⟩

/-- Helper for stating C2: apply `f` only when the toggle is set. -/
def applyIf (b : Bool) (f : List ℝ → List ℝ) (y : List ℝ) : List ℝ :=
  if b then f y else y

/-! ### C1: the ring-modulation cell -/

lemma linspace_length (start stop : ℝ) (num : ℕ) :
    (linspace start stop num).length = num := by
  rw [linspace, List.length_map, List.length_range]

lemma linspace_getElem (start stop : ℝ) (num i : ℕ)
    (h : i < (linspace start stop num).length) :
    (linspace start stop num)[i] = start + (stop - start) / (num : ℝ) * (i : ℝ) := by
  simp only [linspace, List.getElem_map, List.getElem_range]

lemma ringModCell_true_eq (sr : ℝ) (y : List ℝ) :
    ringModCell true sr y =
      List.zipWith (· * ·) y
        ((linspace 0 ((y.length : ℝ) / sr) y.length).map
          fun ti => Real.sin (2.0 * Real.pi * RING_MOD_FREQ * ti)) := rfl

lemma ringModCell_true_length (sr : ℝ) (y : List ℝ) :
    (ringModCell true sr y).length = y.length := by
  rw [ringModCell_true_eq, List.length_zipWith, List.length_map, linspace_length,
    Nat.min_self]

/-- C1: with ring modulation enabled, the ring-modulation cell keeps the
length and maps sample i (for i < n) to y[i]·sin(2π·RING_MOD_FREQ·(i/sr)),
because linspace(0, n/sr, n, endpoint=False)[i] = i·(n/sr)/n = i/sr. -/
theorem ringModCell_enabled_pointwise (sr : ℝ) (y : List ℝ) :
    (ringModCell true sr y).length = y.length ∧
    ∀ i : ℕ, i < y.length →
      (ringModCell true sr y).getD i 0 =
        y.getD i 0 * Real.sin (2.0 * Real.pi * RING_MOD_FREQ * ((i : ℝ) / sr)) := by
  refine ⟨ringModCell_true_length sr y, fun i hi => ?_⟩
  have hlen : i < (ringModCell true sr y).length := by
    rw [ringModCell_true_length]; exact hi
  rw [List.getD_eq_getElem _ _ hlen, List.getD_eq_getElem _ _ hi]
  have harg : (0 : ℝ) + ((y.length : ℝ) / sr - 0) / (y.length : ℝ) * (i : ℝ) =
      (i : ℝ) / sr := by
    have hn : (y.length : ℝ) ≠ 0 := by
      exact_mod_cast (Nat.pos_of_ne_zero fun h => by simp [h] at hi).ne'
    rcases eq_or_ne sr 0 with hsr | hsr
    · simp [hsr]
    · field_simp
      ring
  simp only [ringModCell_true_eq, List.getElem_zipWith, List.getElem_map,
    linspace_getElem, harg]

/-- Witness for C1 at y = [1, 2], sr = 2, i = 1. -/
theorem ringModCell_enabled_pointwise_witness :
    1 < ([(1 : ℝ), 2]).length ∧
    (ringModCell true 2 [(1 : ℝ), 2]).getD 1 0 =
      ([(1 : ℝ), 2]).getD 1 0 *
        Real.sin (2.0 * Real.pi * RING_MOD_FREQ * (((1 : ℕ) : ℝ) / 2)) :=
  ⟨by decide, (ringModCell_enabled_pointwise 2 [(1 : ℝ), 2]).2 1 (by decide)⟩


/-! ### C2, C4, C10, C3: the cell chain -/

lemma effectsChain_eq_applyIf (fx : ExternalFX) (c : Config) (sr : ℝ)
    (y : List ℝ) :
    effectsChain fx c sr y =
      some (applyIf c.DO_PHASER
        (fun w => fx.phaser ⟨PHASER_RATE, PHASER_DEPTH, PHASER_MIX⟩ sr w)
        (applyIf c.DO_FLANGER
          (fun w => fx.chorus
            ⟨FLANGER_RATE, FLANGER_DEPTH, FLANGER_CENTRE_DELAY_MS,
              FLANGER_FEEDBACK, FLANGER_MIX⟩ sr w)
          (applyIf c.DO_BANDPASS
            (fun w => bandpass_filter fx.butter w BANDPASS_LOW BANDPASS_HIGH sr)
            (applyIf c.DO_RING_MOD (fun w => ringModCell true sr w)
              (applyIf c.DO_PITCH_SHIFT
                (fun w => fx.pitch_shift sr PITCH_SHIFT_STEPS 12 "kaiser_best" w)
                y))))) := by
  obtain ⟨p, r, bp, fl, ph⟩ := c
  cases p <;> cases r <;> cases bp <;> cases fl <;> cases ph <;> rfl

/-- C2: the chain applies exactly the toggled effects, in the fixed order
pitch shift, ring modulation, bandpass, flanger (a Chorus plugin holding
the FLANGER_* constants), phaser; a cleared toggle leaves the intermediate
waveform unchanged at that position (applyIf false f = id). -/
theorem effectsChain_fixed_order (fx : ExternalFX) (c : Config) (sr : ℝ)
    (y : List ℝ) :
    effectsChain fx c sr y =
      some (applyIf c.DO_PHASER
        (fun w => fx.phaser ⟨PHASER_RATE, PHASER_DEPTH, PHASER_MIX⟩ sr w)
        (applyIf c.DO_FLANGER
          (fun w => fx.chorus
            ⟨FLANGER_RATE, FLANGER_DEPTH, FLANGER_CENTRE_DELAY_MS,
              FLANGER_FEEDBACK, FLANGER_MIX⟩ sr w)
          (applyIf c.DO_BANDPASS
            (fun w => bandpass_filter fx.butter w BANDPASS_LOW BANDPASS_HIGH sr)
            (applyIf c.DO_RING_MOD (fun w => ringModCell true sr w)
              (applyIf c.DO_PITCH_SHIFT
                (fun w => fx.pitch_shift sr PITCH_SHIFT_STEPS 12 "kaiser_best" w)
                y))))) ∧
    ∀ f w, applyIf false f w = w :=
  ⟨effectsChain_eq_applyIf fx c sr y, fun _ _ => rfl⟩

/-- C4: every expand_dims/board/squeeze round trip returns the mono
channel the plugin produced, and in consequence the chain always yields a
1-D waveform (never a failing squeeze). -/
theorem effectsChain_output_mono :
    (∀ (plugin : ℝ → List ℝ → List ℝ) (sr : ℝ) (y : List ℝ),
      squeeze0 (pedalboardRun plugin sr (expand_dims0 y)) = some (plugin sr y)) ∧
    (∀ (fx : ExternalFX) (c : Config) (sr : ℝ) (y : List ℝ),
      ∃ out : List ℝ, effectsChain fx c sr y = some out) :=
  ⟨fun _ _ _ => rfl, fun fx c sr y => ⟨_, effectsChain_eq_applyIf fx c sr y⟩⟩

/-- C10: with all five toggles cleared the whole script is the identity:
the samples written out are the input samples, at the input sample rate. -/
theorem runVocoder_all_toggles_off_identity (fx : ExternalFX)
    (input : AudioFile) :
    runVocoder fx ⟨false, false, false, false, false⟩ input = some input := by
  cases input
  rfl

/-- C3: whatever the toggles and the external effects do, the sample rate
written with the output equals the decoded input sample rate. -/
theorem runVocoder_preserves_sampleRate (fx : ExternalFX) (c : Config)
    (input out : AudioFile) (h : runVocoder fx c input = some out) :
    out.sampleRate = input.sampleRate := by
  unfold runVocoder at h
  rcases Option.map_eq_some'.mp h with ⟨yc, _, rfl⟩
  rfl

/-- Identity instantiation of the external effects, used by witnesses. -/
noncomputable def fxId : ExternalFX where
  pitch_shift := fun _ _ _ _ w => w
  chorus := fun _ _ w => w
  phaser := fun _ _ w => w
  butter := fun _ _ _ _ => ([1], [1])

/-- Witness for C3 with the flanger and phaser toggled on. -/
theorem runVocoder_preserves_sampleRate_witness :
    runVocoder fxId ⟨false, false, false, true, true⟩ ⟨[(0 : ℝ)], 44100⟩ =
      some ⟨[(0 : ℝ)], 44100⟩ ∧
    (⟨[(0 : ℝ)], 44100⟩ : AudioFile).sampleRate =
      (⟨[(0 : ℝ)], 44100⟩ : AudioFile).sampleRate :=
  ⟨rfl, runVocoder_preserves_sampleRate fxId ⟨false, false, false, true, true⟩
    ⟨[(0 : ℝ)], 44100⟩ ⟨[(0 : ℝ)], 44100⟩ rfl⟩


/-! ### C5: the bandpass step -/

lemma lfilterAux_length (b a : List ℝ) (n : ℕ) :
    ∀ (x z : List ℝ), (lfilterAux b a n z x).length = x.length := by
  intro x
  induction x with
  | nil => intro z; rfl
  | cons xn rest ih =>
    intro z
    simp only [lfilterAux, List.length_cons, ih]

lemma lfilter_length (b a x : List ℝ) : (lfilter b a x).length = x.length :=
  lfilterAux_length _ _ _ x _

/-- C5: bandpass_filter normalises the cutoffs to lowcut/(0.5·fs) and
highcut/(0.5·fs), designs an order-4 Butterworth 'band' filter at those
edges, applies it with lfilter (direct-form filtering, no zero-phase
correction), and returns an output of the input's length. -/
theorem bandpass_filter_design_and_length
    (butter : ℕ → ℝ → ℝ → String → List ℝ × List ℝ)
    (data : List ℝ) (lowcut highcut fs : ℝ) :
    bandpass_filter butter data lowcut highcut fs =
      lfilter (butter 4 (lowcut / (0.5 * fs)) (highcut / (0.5 * fs)) "band").1
        (butter 4 (lowcut / (0.5 * fs)) (highcut / (0.5 * fs)) "band").2 data ∧
    (bandpass_filter butter data lowcut highcut fs).length = data.length :=
  ⟨rfl, lfilter_length _ _ _⟩

/-! ### run_jobs.sh (src/unnamed/part_000): C6 and C7 -/

/-- Environment a run of run_jobs.sh executes in: its argument list,
whether /home/USER/Projects/rss-personal-radio exists, whether a .env file
exists there, whether the pyenv virtualenv activate file exists, and the
exit code `python daily_intro.py` would return. -/
structure ShellEnv where
  args : List String
  projectDirExists : Bool
  envFileExists : Bool
  venvActivateExists : Bool
  dailyIntroExitCode : ℕ

/-- Observable outcome of a run of run_jobs.sh. -/
structure RunJobsResult where
  exitStatus : ℕ
  stdoutLog : List String
  stderrLog : List String
  ranDailyIntro : Bool

/-- run_jobs.sh: usage check (`$# -lt 1` → exit 1), cd into the project
directory (missing → exit 1), source .env if present (no control-flow
effect), check the virtualenv activate file (missing → exit 1), then run
`python daily_intro.py`; a non-zero python exit only echoes an error line
to stderr, after which the script echoes "Jobs completed." and exits with
the status of that final echo, 0. -/
def run_jobs (e : ShellEnv) : RunJobsResult :=
  if e.args.isEmpty then
    { exitStatus := 1
      stdoutLog := ["Usage: $0 <username>"]
      stderrLog := []
      ranDailyIntro := false }
  else
    let USER_NAME := e.args.headI
    let PROJECT_DIR := "/home/" ++ USER_NAME ++ "/Projects/rss-personal-radio"
    if e.projectDirExists then
      if e.venvActivateExists then
        { exitStatus := 0
          stdoutLog := ["Running daily_intro.py...", "Jobs completed."]
          stderrLog :=
            if e.dailyIntroExitCode = 0 then []
            else ["daily_intro.py encountered an error."]
          ranDailyIntro := true }
      else
        { exitStatus := 1
          stdoutLog :=
            ["Could not find virtual environment at /home/" ++ USER_NAME ++
              "/.pyenv/versions/.venv/bin/activate.",
             "Please adjust the path as needed."]
          stderrLog := []
          ranDailyIntro := false }
    else
      { exitStatus := 1
        stdoutLog := ["Project directory not found at " ++ PROJECT_DIR ++ "; exiting."]
        stderrLog := []
        ranDailyIntro := false }

/-- C7: run_jobs.sh exits 1 exactly on the three environment checks
(missing argument, missing project directory, missing virtualenv activate
file) and runs daily_intro.py exactly when all three pass; a completed run
exits 0 regardless of the python exit code. -/
theorem run_jobs_env_checks (e : ShellEnv) :
    (run_jobs e).ranDailyIntro =
      (!e.args.isEmpty && e.projectDirExists && e.venvActivateExists) ∧
    (run_jobs e).exitStatus =
      (if !e.args.isEmpty && e.projectDirExists && e.venvActivateExists
        then 0 else 1) := by
  rcases e with ⟨args, pd, ef, va, dx⟩
  cases args <;> cases pd <;> cases va <;> simp [run_jobs]

/-- Environment where all setup checks pass and daily_intro.py fails. -/
def envDailyIntroFails : ShellEnv :=
  { args := ["standard"]
    projectDirExists := true
    envFileExists := true
    venvActivateExists := true
    dailyIntroExitCode := 1 }

/-- Counterexample to C6: daily_intro.py fails (exit code 1), the wrapper
logs the error line to stderr, yet the overall process exits with status 0,
not a non-zero status as claimed. -/
theorem run_jobs_error_exit_zero_counterexample :
    envDailyIntroFails.dailyIntroExitCode = 1 ∧
    (run_jobs envDailyIntroFails).ranDailyIntro = true ∧
    (run_jobs envDailyIntroFails).stderrLog =
      ["daily_intro.py encountered an error."] ∧
    (run_jobs envDailyIntroFails).exitStatus = 0 :=
  ⟨rfl, rfl, rfl, rfl⟩

/-- C6 amended: when daily_intro.py exits non-zero after a successful
environment setup, run_jobs.sh logs "daily_intro.py encountered an error."
to stderr, runs nothing again (no retry or recovery), and still finishes
with "Jobs completed." and exit status 0; only the failed child's own exit
status is non-zero. -/
theorem run_jobs_error_logged_exit_zero (u : String) (t : List String)
    (ef : Bool) (dx : ℕ) :
    run_jobs ⟨u :: t, true, ef, true, dx⟩ =
      { exitStatus := 0
        stdoutLog := ["Running daily_intro.py...", "Jobs completed."]
        stderrLog :=
          if dx = 0 then [] else ["daily_intro.py encountered an error."]
        ranDailyIntro := true } := by
  simp [run_jobs]

end RssPersonalRadio
